import Mathlib

/-!
Verification of the Tinkerer blog configuration file `conf.py`.

The file binds a flat set of configuration names to values. Most bindings are
literal constants; a few read attributes of the imported `tinkerer` module
(`tinkerer.paths.static`, `tinkerer.paths.themes`, `tinkerer.source_suffix`,
`tinkerer.master_doc`, `tinkerer.__version__`). We embed the load of the file
as a pure function of the attributes of the imported module.
-/

/-- The attributes of `tinkerer.paths` read by `conf.py`. -/
structure TinkererPaths where
  static : String
  themes : String
  deriving DecidableEq, Repr

/-- The attributes of the imported `tinkerer` module read by `conf.py`. -/
structure TinkererModule where
  paths : TinkererPaths
  source_suffix : String
  master_doc : String
  version_string : String
  deriving DecidableEq, Repr

/-- The flat configuration record bound by `conf.py`, one field per
module-level assignment. -/
structure Conf where
  project : String
  tagline : String
  description : String
  author : String
  copyright : String
  website : String
  html_favicon : String
  html_theme : String
  html_theme_options : List (String × String)
  rss_service : Option String
  rss_generate_full_posts : Bool
  posts_per_page : Int
  slug_word_separator : String
  landing_page : Option String
  first_page_title : Option String
  extensions : List String
  templates_path : List String
  html_static_path : List String
  html_theme_path : List String
  exclude_patterns : List String
  html_sidebars : List (String × List String)
  html_use_index : Bool
  source_suffix : String
  master_doc : String
  version : String
  release : String
  html_title : String
  html_show_sourcelink : Bool
  html_add_permalinks : String
  deriving DecidableEq, Repr

/-- Executing `conf.py` top to bottom with the imported `tinkerer` module `t`
in scope: each field is the value the corresponding assignment binds. -/
def loadConf (t : TinkererModule) : Conf :=
  let project := "Blog"
  let author := "Vlad Rișcuția"
  { project := project
    tagline := ""
    description := "Vlad\x27s Tech Blog"
    author := author
    copyright := author
    website := "http://vladris.com/blog/"
    html_favicon := "_static/tinkerer.ico"
    html_theme := "flat"
    html_theme_options := [("accent_color", "#dd0000")]
    rss_service := Option.none
    rss_generate_full_posts := false
    posts_per_page := 10
    slug_word_separator := "-"
    landing_page := Option.none
    first_page_title := Option.none
    extensions := ["tinkerer.ext.blog", "sphinx.ext.mathjax"]
    templates_path := ["_templates"]
    html_static_path := ["_static", t.paths.static]
    html_theme_path := ["_themes", t.paths.themes]
    exclude_patterns := ["drafts/*", "_templates/*"]
    html_sidebars := [("**", [])]
    html_use_index := false
    source_suffix := t.source_suffix
    master_doc := t.master_doc
    version := t.version_string
    release := t.version_string
    html_title := project
    html_show_sourcelink := false
    html_add_permalinks := "" }

/-- A sample instantiation of the imported module, used for concrete checks. -/
def tEx : TinkererModule :=
  { paths := { static := "/usr/lib/tinkerer/static", themes := "/usr/lib/tinkerer/themes" }
    source_suffix := ".rst"
    master_doc := "master"
    version_string := "1.4.2" }

/-- A character that belongs to a word of a slug: a letter or a digit. -/
def isWordChar (c : Char) : Bool :=
  c.isAlpha || c.isDigit

/-- Cut a character list into its maximal alphanumeric runs; `acc` holds the
current run, reversed. -/
def slugWords : List Char → List Char → List (List Char)
  | [], acc => if acc.isEmpty then [] else [acc.reverse]
  | c :: rest, acc =>
    if isWordChar c then slugWords rest (c :: acc)
    else if acc.isEmpty then slugWords rest []
    else acc.reverse :: slugWords rest []

/-- Modelled from the spec: the externally-owned slugging algorithm is not
under src/ (it lives in Tinkerer). Per the glossary, a slug is a URL-safe
identifier derived from a title by replacing non-alphanumeric runs with the
separator: lowercase the title, take its maximal alphanumeric runs, and join
them with the separator. -/
def slugify (sep : String) (title : String) : String :=
  String.mk (List.intercalate sep.data (slugWords (title.data.map Char.toLower) []))

/-- Where the feed links of the rendered site point. -/
inductive FeedLinkTarget where
  | direct
  | relay (service : String)
  deriving DecidableEq, Repr

/-- Modelled from the spec: the reading of `rss_service` by the external renderer
is not under src/. If the key is set, feed links point to that relay;
absent means no relay and the feed is linked directly. -/
def feedLinkTarget (rss_service : Option String) : FeedLinkTarget :=
  match rss_service with
  | Option.none => FeedLinkTarget.direct
  | Option.some s => FeedLinkTarget.relay s

/-- What the external renderer uses as the root of the site. -/
inductive SiteRoot where
  | postListing
  | page (name : String)
  deriving DecidableEq, Repr

/-- Modelled from the spec: the reading of `landing_page`
by the external renderer is not under src/. If the key is set, that page is the site
root; absent means the post listing is used as the root. -/
def siteRoot (landing_page : Option String) : SiteRoot :=
  match landing_page with
  | Option.none => SiteRoot.postListing
  | Option.some p => SiteRoot.page p

/-- Modelled from the spec: the external renderer reports a build-time
configuration error when the base URL required for absolute feed links is
absent; an empty `website` is the absent case. -/
def baseUrlError (c : Conf) : Option String :=
  if c.website = "" then Option.some "missing required key: website" else Option.none

/-- A value of the structured settings document: literal scalars, lists,
mappings, and the absent sentinel. -/
inductive Value where
  | vstr (s : String)
  | vint (n : Int)
  | vbool (b : Bool)
  | vnone
  | vlist (l : List String)
  | vstrMap (m : List (String × String))
  | vsidebarMap (m : List (String × List String))
  deriving DecidableEq, Repr

/-- First value bound to key `k` in a document, scanning left to right. -/
def lookupVal (doc : List (String × Value)) (k : String) : Option Value :=
  match doc with
  | [] => Option.none
  | (k', v) :: rest => if k' = k then Option.some v else lookupVal rest k

/-- Modelled from the spec: serialization of the record to its document form
is done by the external tool, not under src/. The document lists every key of
the record with its literal value, in declaration order. -/
def serialize (c : Conf) : List (String × Value) :=
  [("project", Value.vstr c.project),
   ("tagline", Value.vstr c.tagline),
   ("description", Value.vstr c.description),
   ("author", Value.vstr c.author),
   ("copyright", Value.vstr c.copyright),
   ("website", Value.vstr c.website),
   ("html_favicon", Value.vstr c.html_favicon),
   ("html_theme", Value.vstr c.html_theme),
   ("html_theme_options", Value.vstrMap c.html_theme_options),
   ("rss_service", match c.rss_service with
     | Option.none => Value.vnone
     | Option.some s => Value.vstr s),
   ("rss_generate_full_posts", Value.vbool c.rss_generate_full_posts),
   ("posts_per_page", Value.vint c.posts_per_page),
   ("slug_word_separator", Value.vstr c.slug_word_separator),
   ("landing_page", match c.landing_page with
     | Option.none => Value.vnone
     | Option.some s => Value.vstr s),
   ("first_page_title", match c.first_page_title with
     | Option.none => Value.vnone
     | Option.some s => Value.vstr s),
   ("extensions", Value.vlist c.extensions),
   ("templates_path", Value.vlist c.templates_path),
   ("html_static_path", Value.vlist c.html_static_path),
   ("html_theme_path", Value.vlist c.html_theme_path),
   ("exclude_patterns", Value.vlist c.exclude_patterns),
   ("html_sidebars", Value.vsidebarMap c.html_sidebars),
   ("html_use_index", Value.vbool c.html_use_index),
   ("source_suffix", Value.vstr c.source_suffix),
   ("master_doc", Value.vstr c.master_doc),
   ("version", Value.vstr c.version),
   ("release", Value.vstr c.release),
   ("html_title", Value.vstr c.html_title),
   ("html_show_sourcelink", Value.vbool c.html_show_sourcelink),
   ("html_add_permalinks", Value.vstr c.html_add_permalinks)]

/-- Read a string value bound to `k` in a document. -/
def getStr (doc : List (String × Value)) (k : String) : Option String :=
  match lookupVal doc k with
  | Option.some (Value.vstr s) => Option.some s
  | _ => Option.none

/-- Read an optional-string value bound to `k` (absent sentinel allowed). -/
def getOptStr (doc : List (String × Value)) (k : String) : Option (Option String) :=
  match lookupVal doc k with
  | Option.some Value.vnone => Option.some Option.none
  | Option.some (Value.vstr s) => Option.some (Option.some s)
  | _ => Option.none

/-- Read a boolean value bound to `k` in a document. -/
def getBool (doc : List (String × Value)) (k : String) : Option Bool :=
  match lookupVal doc k with
  | Option.some (Value.vbool b) => Option.some b
  | _ => Option.none

/-- Read an integer value bound to `k` in a document. -/
def getInt (doc : List (String × Value)) (k : String) : Option Int :=
  match lookupVal doc k with
  | Option.some (Value.vint n) => Option.some n
  | _ => Option.none

/-- Read a string-list value bound to `k` in a document. -/
def getList (doc : List (String × Value)) (k : String) : Option (List String) :=
  match lookupVal doc k with
  | Option.some (Value.vlist l) => Option.some l
  | _ => Option.none

/-- Read a string-to-string mapping bound to `k` in a document. -/
def getStrMap (doc : List (String × Value)) (k : String) : Option (List (String × String)) :=
  match lookupVal doc k with
  | Option.some (Value.vstrMap m) => Option.some m
  | _ => Option.none

/-- Read a sidebar mapping bound to `k` in a document. -/
def getSidebarMap (doc : List (String × Value)) (k : String) :
    Option (List (String × List String)) :=
  match lookupVal doc k with
  | Option.some (Value.vsidebarMap m) => Option.some m
  | _ => Option.none

/-- Identity keys of the document: project, tagline, description, author,
copyright, website. -/
def reloadIdentity (doc : List (String × Value)) :
    Option (String × String × String × String × String × String) := do
  let project ← getStr doc "project"
  let tagline ← getStr doc "tagline"
  let description ← getStr doc "description"
  let author ← getStr doc "author"
  let copyright ← getStr doc "copyright"
  let website ← getStr doc "website"
  Option.some (project, tagline, description, author, copyright, website)

/-- Presentation and feed keys of the document: html_favicon, html_theme,
html_theme_options, rss_service, rss_generate_full_posts, posts_per_page. -/
def reloadPresentation (doc : List (String × Value)) :
    Option (String × String × List (String × String) × Option String × Bool × Int) := do
  let html_favicon ← getStr doc "html_favicon"
  let html_theme ← getStr doc "html_theme"
  let html_theme_options ← getStrMap doc "html_theme_options"
  let rss_service ← getOptStr doc "rss_service"
  let rss_generate_full_posts ← getBool doc "rss_generate_full_posts"
  let posts_per_page ← getInt doc "posts_per_page"
  Option.some (html_favicon, html_theme, html_theme_options, rss_service,
    rss_generate_full_posts, posts_per_page)

/-- Navigation and path keys of the document: slug_word_separator,
landing_page, first_page_title, extensions, templates_path,
html_static_path. -/
def reloadNavigation (doc : List (String × Value)) :
    Option (String × Option String × Option String × List String × List String × List String) := do
  let slug_word_separator ← getStr doc "slug_word_separator"
  let landing_page ← getOptStr doc "landing_page"
  let first_page_title ← getOptStr doc "first_page_title"
  let extensions ← getList doc "extensions"
  let templates_path ← getList doc "templates_path"
  let html_static_path ← getList doc "html_static_path"
  Option.some (slug_word_separator, landing_page, first_page_title, extensions,
    templates_path, html_static_path)

/-- Build-wiring keys of the document: html_theme_path, exclude_patterns,
html_sidebars, html_use_index, source_suffix, master_doc. -/
def reloadWiring (doc : List (String × Value)) :
    Option (List String × List String × List (String × List String) × Bool × String × String) := do
  let html_theme_path ← getList doc "html_theme_path"
  let exclude_patterns ← getList doc "exclude_patterns"
  let html_sidebars ← getSidebarMap doc "html_sidebars"
  let html_use_index ← getBool doc "html_use_index"
  let source_suffix ← getStr doc "source_suffix"
  let master_doc ← getStr doc "master_doc"
  Option.some (html_theme_path, exclude_patterns, html_sidebars, html_use_index,
    source_suffix, master_doc)

/-- Sphinx-required keys of the document: version, release, html_title,
html_show_sourcelink, html_add_permalinks. -/
def reloadSphinx (doc : List (String × Value)) :
    Option (String × String × String × Bool × String) := do
  let version ← getStr doc "version"
  let release ← getStr doc "release"
  let html_title ← getStr doc "html_title"
  let html_show_sourcelink ← getBool doc "html_show_sourcelink"
  let html_add_permalinks ← getStr doc "html_add_permalinks"
  Option.some (version, release, html_title, html_show_sourcelink, html_add_permalinks)

/-- Modelled from the spec: reloading the document form back into a record,
reading every key of the record; fails if a key is missing or has the wrong
shape. -/
def reload (doc : List (String × Value)) : Option Conf := do
  let (project, tagline, description, author, copyright, website) ← reloadIdentity doc
  let (html_favicon, html_theme, html_theme_options, rss_service,
    rss_generate_full_posts, posts_per_page) ← reloadPresentation doc
  let (slug_word_separator, landing_page, first_page_title, extensions,
    templates_path, html_static_path) ← reloadNavigation doc
  let (html_theme_path, exclude_patterns, html_sidebars, html_use_index,
    source_suffix, master_doc) ← reloadWiring doc
  let (version, release, html_title, html_show_sourcelink, html_add_permalinks) ←
    reloadSphinx doc
  Option.some
    { project := project
      tagline := tagline
      description := description
      author := author
      copyright := copyright
      website := website
      html_favicon := html_favicon
      html_theme := html_theme
      html_theme_options := html_theme_options
      rss_service := rss_service
      rss_generate_full_posts := rss_generate_full_posts
      posts_per_page := posts_per_page
      slug_word_separator := slug_word_separator
      landing_page := landing_page
      first_page_title := first_page_title
      extensions := extensions
      templates_path := templates_path
      html_static_path := html_static_path
      html_theme_path := html_theme_path
      exclude_patterns := exclude_patterns
      html_sidebars := html_sidebars
      html_use_index := html_use_index
      source_suffix := source_suffix
      master_doc := master_doc
      version := version
      release := release
      html_title := html_title
      html_show_sourcelink := html_show_sourcelink
      html_add_permalinks := html_add_permalinks }

/-- Reading a key of the record: the value found in its document form,
paired with the record as it stands after the read. The record is pure
data, so a read returns it unchanged. -/
def readKey (c : Conf) (k : String) : Option Value × Conf :=
  (lookupVal (serialize c) k, c)

/-- Helper: the round trip through document form is the identity on any
configuration record. -/
theorem reload_serialize (c : Conf) : reload (serialize c) = Option.some c := by
  cases c with
  | mk project tagline description author copyright website html_favicon html_theme
      html_theme_options rss_service rss_generate_full_posts posts_per_page
      slug_word_separator landing_page first_page_title extensions templates_path
      html_static_path html_theme_path exclude_patterns html_sidebars html_use_index
      source_suffix master_doc version release html_title html_show_sourcelink
      html_add_permalinks =>
    cases rss_service <;> cases landing_page <;> cases first_page_title <;> rfl

/-- C1 counterexample: the value of the recognized key `html_static_path`
is not a constant of the record; it changes with the imported module, so not
every recognized key is bound to a literal independent of imports. -/
theorem html_static_path_depends_on_module :
    (loadConf ⟨⟨"/lib/a", "/lib/t"⟩, ".rst", "master", "1.0"⟩).html_static_path ≠
    (loadConf ⟨⟨"/lib/b", "/lib/t"⟩, ".rst", "master", "1.0"⟩).html_static_path := by
  decide

/-- C1 (amended): every recognized key of the record except
`html_static_path` and `html_theme_path` is bound to a literal constant
independent of the imported module, while those two keys are two-element
lists whose first element is a literal and whose second element is read from
the `tinkerer.paths` module. -/
theorem conf_recognized_keys_literal_except_module_paths (t₁ t₂ : TinkererModule) :
    (loadConf t₁).project = (loadConf t₂).project ∧
    (loadConf t₁).tagline = (loadConf t₂).tagline ∧
    (loadConf t₁).description = (loadConf t₂).description ∧
    (loadConf t₁).author = (loadConf t₂).author ∧
    (loadConf t₁).copyright = (loadConf t₂).copyright ∧
    (loadConf t₁).website = (loadConf t₂).website ∧
    (loadConf t₁).html_favicon = (loadConf t₂).html_favicon ∧
    (loadConf t₁).html_theme = (loadConf t₂).html_theme ∧
    (loadConf t₁).html_theme_options = (loadConf t₂).html_theme_options ∧
    (loadConf t₁).rss_service = (loadConf t₂).rss_service ∧
    (loadConf t₁).rss_generate_full_posts = (loadConf t₂).rss_generate_full_posts ∧
    (loadConf t₁).posts_per_page = (loadConf t₂).posts_per_page ∧
    (loadConf t₁).slug_word_separator = (loadConf t₂).slug_word_separator ∧
    (loadConf t₁).landing_page = (loadConf t₂).landing_page ∧
    (loadConf t₁).first_page_title = (loadConf t₂).first_page_title ∧
    (loadConf t₁).extensions = (loadConf t₂).extensions ∧
    (loadConf t₁).templates_path = (loadConf t₂).templates_path ∧
    (loadConf t₁).exclude_patterns = (loadConf t₂).exclude_patterns ∧
    (loadConf t₁).html_sidebars = (loadConf t₂).html_sidebars ∧
    (loadConf t₁).html_use_index = (loadConf t₂).html_use_index ∧
    (loadConf t₁).html_static_path = ["_static", t₁.paths.static] ∧
    (loadConf t₁).html_theme_path = ["_themes", t₁.paths.themes] :=
  ⟨rfl, rfl, rfl, rfl, rfl, rfl, rfl, rfl, rfl, rfl, rfl, rfl, rfl, rfl, rfl,
   rfl, rfl, rfl, rfl, rfl, rfl, rfl⟩

/-- C2: in the constructed configuration record, `posts_per_page` is a
positive integer, and its value, the page size consumed by listing views, is
exactly 10. -/
theorem posts_per_page_positive_and_ten (t : TinkererModule) :
    0 < (loadConf t).posts_per_page ∧ (loadConf t).posts_per_page = 10 :=
  ⟨by change (0 : Int) < 10; decide, rfl⟩

/-- C3: `slug_word_separator` is the single printable character `-`, and the
slugging contract of the spec applied with this separator to the title
`Hello, World!` yields the slug `hello-world`. -/
theorem slug_word_separator_single_printable_and_slugs (t : TinkererModule) :
    (loadConf t).slug_word_separator = "-" ∧
    (loadConf t).slug_word_separator.length = 1 ∧
    ((loadConf t).slug_word_separator.data.all
      (fun c => decide (32 ≤ c.toNat ∧ c.toNat ≤ 126))) = true ∧
    slugify (loadConf t).slug_word_separator "Hello, World!" = "hello-world" :=
  ⟨rfl, rfl,
   by change ("-".data.all (fun c => decide (32 ≤ c.toNat ∧ c.toNat ≤ 126))) = true; decide,
   by change slugify "-" "Hello, World!" = "hello-world"; decide⟩

/-- C4: the `extensions` value of the record is the ordered sequence with
`tinkerer.ext.blog` first, `sphinx.ext.mathjax` second, and no others. -/
theorem extensions_declared_order (t : TinkererModule) :
    (loadConf t).extensions = ["tinkerer.ext.blog", "sphinx.ext.mathjax"] :=
  rfl

/-- C5: `rss_service` and `landing_page` are both the absent sentinel in this
record, so the external readings give the documented defaults: feed links
point directly at the local feed and the post listing is the site root. -/
theorem rss_service_landing_page_defaults (t : TinkererModule) :
    (loadConf t).rss_service = Option.none ∧
    (loadConf t).landing_page = Option.none ∧
    feedLinkTarget (loadConf t).rss_service = FeedLinkTarget.direct ∧
    siteRoot (loadConf t).landing_page = SiteRoot.postListing :=
  ⟨rfl, rfl, rfl, rfl⟩

/-- C6: serializing the configuration record to its document form and
reloading that document yields exactly the original record, key for key. -/
theorem conf_document_roundtrip (t : TinkererModule) :
    reload (serialize (loadConf t)) = Option.some (loadConf t) :=
  reload_serialize (loadConf t)

/-- C7: the record binds `website` to the non-empty canonical base URL, so
the missing-base-URL failure mode is unreachable for this record. -/
theorem website_base_url_present (t : TinkererModule) :
    (loadConf t).website = "http://vladris.com/blog/" ∧
    (loadConf t).website ≠ "" ∧
    baseUrlError (loadConf t) = Option.none :=
  ⟨rfl, by change "http://vladris.com/blog/" ≠ ""; decide, rfl⟩

/-- C8: loading the record is deterministic and reading it is effect-free:
two loads against equal imported modules agree on every key, and reading any
key of any record returns the record unchanged. -/
theorem conf_load_deterministic_and_read_pure (t₁ t₂ : TinkererModule) (h : t₁ = t₂) :
    (∀ k : String, readKey (loadConf t₁) k = readKey (loadConf t₂) k) ∧
    (∀ c : Conf, ∀ k : String, (readKey c k).2 = c) := by
  subst h
  exact ⟨fun _ => rfl, fun _ _ => rfl⟩

/-- Witness for C8 at the sample module and the key `project`. -/
theorem conf_load_deterministic_and_read_pure_witness :
    readKey (loadConf tEx) "project" = readKey (loadConf tEx) "project" ∧
    (readKey (loadConf tEx) "project").2 = loadConf tEx :=
  ⟨(conf_load_deterministic_and_read_pure tEx tEx rfl).1 "project",
   (conf_load_deterministic_and_read_pure tEx tEx rfl).2 (loadConf tEx) "project"⟩

/-- C9: in the constructed record, `copyright` is bound to `author`, so the
two fields are the same string `Vlad Rișcuția`. -/
theorem copyright_equals_author (t : TinkererModule) :
    (loadConf t).copyright = (loadConf t).author ∧
    (loadConf t).copyright = "Vlad Rișcuția" :=
  ⟨rfl, rfl⟩

/-- C10: the record binds `html_title` to `project`, so the rendered site
title always matches the project name, the string `Blog`. -/
theorem html_title_equals_project (t : TinkererModule) :
    (loadConf t).html_title = (loadConf t).project ∧
    (loadConf t).project = "Blog" :=
  ⟨rfl, rfl⟩
